import Mathlib

/-!
Shallow embedding of `run_pipeline.py`: the linear pipeline orchestrator
(`main`), its step primitives (`run_command`, `rename_file`), the PDF
page-count resolver (`get_pdf_page_count`) and the per-page stamping loop.
External effects (subprocess results, file reads, HTTP transfers) are
passed in explicitly as environment values; `none` models the
corresponding call raising an exception.
-/

/-- Byte codes of a string literal. Every character appearing in the
texts this script handles is below 256, and Python `latin-1` decoding is
the code-point-preserving bijection, so raw file bytes and the decoded
text share this representation. -/
def strCodes (s : String) : List Nat :=
  s.toList.map Char.toNat

/-- Whitespace class of the regex escape for ASCII text: space, tab,
newline, vertical tab, form feed, carriage return. -/
def isPySpaceCode (c : Nat) : Bool :=
  c == 32 || c == 9 || c == 10 || c == 11 || c == 12 || c == 13

/-- Digit class of the regex escape. -/
def isDigitCode (c : Nat) : Bool :=
  decide (48 ≤ c ∧ c ≤ 57)

/-- Value of the maximal leading digit run, accumulator form; mirrors
`int(match.group(1))` applied to the digits captured greedily. -/
def digitsPrefixVal : List Nat → Nat → Nat
  | c :: rest, acc =>
    if isDigitCode c then digitsPrefixVal rest (acc * 10 + (c - 48)) else acc
  | [], acc => acc

/-- Match of one-or-more digits at the head of the input: at least one
digit, extended greedily. -/
def readNatCode (s : List Nat) : Option Nat :=
  match s with
  | c :: _ => if isDigitCode c then some (digitsPrefixVal s 0) else none
  | [] => none

/-- Fuel-indexed core of Python `bytes.count`: non-overlapping
occurrences, scanning left to right; after a match the scan resumes just
past it. Taking the input length as fuel keeps the recursion structural
without changing the result for a nonempty needle. -/
def countOccurAux (sub : List Nat) : Nat → List Nat → Nat
  | 0, _ => 0
  | _, [] => 0
  | fuel + 1, c :: rest =>
    if sub.isPrefixOf (c :: rest) then
      1 + countOccurAux sub fuel ((c :: rest).drop sub.length)
    else
      countOccurAux sub fuel rest

/-- Python `content.count(sub)` for a nonempty `sub`. -/
def countOccur (sub content : List Nat) : Nat :=
  countOccurAux sub content.length content

def mdlsKey : List Nat := strCodes ("kMDItemNumberOfPages")

def pagesLabelKey : List Nat := strCodes ("Pages:")

def countKey : List Nat := strCodes ("/Count")

/-- One attempt of the pattern `kMDItemNumberOfPages`, optional
whitespace, an equals sign (code 61), optional whitespace, digits —
anchored at the current position (run_pipeline.py line 359). -/
def matchMdlsAt (s : List Nat) : Option Nat :=
  if mdlsKey.isPrefixOf s then
    match (s.drop mdlsKey.length).dropWhile isPySpaceCode with
    | 61 :: r => readNatCode (r.dropWhile isPySpaceCode)
    | _ => none
  else none

/-- One attempt of the pattern `Pages:`, optional whitespace, digits —
anchored at the current position (line 374). -/
def matchPdfinfoAt (s : List Nat) : Option Nat :=
  if pagesLabelKey.isPrefixOf s then
    readNatCode ((s.drop pagesLabelKey.length).dropWhile isPySpaceCode)
  else none

/-- One attempt of the pattern `/Count`, at least one whitespace, digits
— anchored at the current position (line 397). -/
def matchCountAt (s : List Nat) : Option Nat :=
  if countKey.isPrefixOf s then
    match s.drop countKey.length with
    | c :: r =>
      if isPySpaceCode c then readNatCode (r.dropWhile isPySpaceCode) else none
    | [] => none
  else none

/-- Model of `re.search`: try the anchored match at every position from
the left; the leftmost success wins. -/
def searchWith (f : List Nat → Option Nat) : List Nat → Option Nat
  | [] => f []
  | c :: rest =>
    match f (c :: rest) with
    | some n => some n
    | none => searchWith f rest

/-- Captured result of a `subprocess.run` call: exit code plus standard
output, the latter as the byte codes of its text. -/
structure ProcResult where
  returncode : Int
  stdout : List Nat

/-- Strategy 1 of `get_pdf_page_count` (run_pipeline.py lines 351-363):
query `mdls -name kMDItemNumberOfPages`. `none` models the call raising.
A zero exit code together with a regex match yields the parsed integer;
otherwise the strategy yields no answer. -/
def mdlsStrategy (r : Option ProcResult) : Option Nat :=
  match r with
  | none => none
  | some res =>
    if res.returncode = 0 then searchWith matchMdlsAt res.stdout else none

/-- Strategy 2 (lines 366-378): run `pdfinfo` and parse its `Pages:`
line. -/
def pdfinfoStrategy (r : Option ProcResult) : Option Nat :=
  match r with
  | none => none
  | some res =>
    if res.returncode = 0 then searchWith matchPdfinfoAt res.stdout else none

def typePageMarker : List Nat := strCodes ("/Type /Page")

def typePagesMarker : List Nat := strCodes ("/Type /Pages")

/-- Strategy 3 (lines 381-391): count the page-object and
pages-collection markers in the raw bytes; return their difference when
the former strictly exceeds the latter, else the former. -/
def byteHeuristic (content : List Nat) : Nat :=
  let count := countOccur typePageMarker content
  let pages_count := countOccur typePagesMarker content
  if pages_count < count then count - pages_count else count

/-- Strategy 4 (lines 394-401): search the latin-1 decoded text for a
`/Count` entry followed by digits. -/
def countFallback (content : List Nat) : Option Nat :=
  searchWith matchCountAt content

/-- Environment of one `get_pdf_page_count` call: the outcome of each
external action in program order, where `none` models that action
raising. The file is opened twice (once by strategy 3, once by strategy
4), hence two independent read outcomes. -/
structure PdfEnv where
  mdls : Option ProcResult
  pdfinfo : Option ProcResult
  read1 : Option (List Nat)
  read2 : Option (List Nat)

/-- The resolver `get_pdf_page_count` (lines 345-403): the first strategy
to return a value wins; a strategy that raises or finds no match is
skipped silently; `none` when all four strategies fail. -/
def get_pdf_page_count (env : PdfEnv) : Option Nat :=
  match mdlsStrategy env.mdls with
  | some n => some n
  | none =>
    match pdfinfoStrategy env.pdfinfo with
    | some n => some n
    | none =>
      match env.read1 with
      | some content => some (byteHeuristic content)
      | none =>
        match env.read2 with
        | some content => countFallback content
        | none => none

/-- A filesystem: the contents (as bytes) found at each path, when any. -/
def FS : Type := String → Option (List Nat)

/-- Step primitive `rename_file` (run_pipeline.py lines 41-55), returning
the reported flag together with the filesystem afterwards. The body first
unlinks an existing destination, then calls `src.rename(dst)`; any
exception — in particular a missing source — is caught and reported as
`false`. -/
def rename_file (fs : FS) (src dst : String) : Bool × FS :=
  let fs1 : FS := if (fs dst).isSome then fun p => if p = dst then none else fs p else fs
  match fs1 src with
  | some content =>
    (true, fun p => if p = dst then some content else if p = src then none else fs1 p)
  | none => (false, fs1)

/-- Step primitive `run_command` (lines 12-38): `none` models
`subprocess.run` itself raising; otherwise success is exactly a zero exit
code. The captured output is printed but never inspected. -/
def run_command (r : Option ProcResult) : Bool :=
  match r with
  | none => false
  | some res => if res.returncode = 0 then true else false

/-- Outcome of one stamping iteration (lines 305-331): `ok out` when the
curl call exits zero and the move of the temporary file succeeds, the
working PDF becoming `out`; `fail` for a nonzero curl exit code or a
raised exception, the working PDF staying as it was. -/
inductive StampOutcome where
  | ok (out : List Nat) : StampOutcome
  | fail : StampOutcome

def StampOutcome.isOk : StampOutcome → Bool
  | .ok _ => true
  | .fail => false

/-- Stamping loop starting at `page` with `r` iterations left (lines
296-331): returns the pages a stamp call was issued for (in order), the
final working PDF, and the step outcome (0 = loop completed, 1 = abort,
matching the surrounding returns of `main`). The oracle `stamp` gives
each call's outcome as a function of the page number and the PDF bytes
sent. -/
def stampFrom (stamp : Nat → List Nat → StampOutcome) :
    Nat → Nat → List Nat → List Nat × List Nat × Nat
  | _, 0, pdf => ([], pdf, 0)
  | page, r + 1, pdf =>
    match stamp page pdf with
    | .ok out =>
      let rest := stampFrom stamp (page + 1) r out
      (page :: rest.1, rest.2)
    | .fail => ([page], pdf, 1)

/-- The loop `for page in range(1, page_count + 1)` of line 297. -/
def stampAll (stamp : Nat → List Nat → StampOutcome) (n : Nat) (pdf0 : List Nat) :
    List Nat × List Nat × Nat :=
  stampFrom stamp 1 n pdf0

/-- Working PDF after `r` successful stampings starting at `page`; used
to state that already-stamped pages are kept when a later page fails. -/
def applyStamps (stamp : Nat → List Nat → StampOutcome) :
    Nat → Nat → List Nat → List Nat
  | _, 0, pdf => pdf
  | page, r + 1, pdf =>
    match stamp page pdf with
    | .ok out => applyStamps stamp (page + 1) r out
    | .fail => pdf

/-- Check at line 290: the run aborts unless the resolved page count is
present and positive. -/
def pageCountPositive : Option Nat → Bool
  | none => false
  | some n => if 0 < n then true else false

/-- Outcomes of the external actions `main` performs, in program order;
`none` again models a raised exception inside the corresponding call. -/
structure MainEnv where
  cdsMapping : Option ProcResult
  renameCds : Bool
  copyToRest : Bool
  mergeLetterdata : Option ProcResult
  renameRest : Bool
  copyToScriptRes : Bool
  mavenCompile : Option ProcResult
  mavenExec : Option ProcResult
  renameScriptRes : Bool
  copyToPdfgen : Bool
  storageUpload : Option ProcResult
  renderToPdf : Option ProcResult
  pageCount : Option Nat
  stampLoop : Bool

/-- The guarded actions of `main` (lines 95-331) in program order, each
paired with the error message printed when it fails. Messages carrying
runtime interpolation are represented by their fixed prefix, and the
stamping loop's two failure messages by the first of them. -/
def mainSteps (env : MainEnv) : List (String × Bool) :=
  [ ("ERROR: Step 1 failed - cds_mapping.py", run_command env.cdsMapping),
    ("ERROR: Step 2 failed - renaming output.json", env.renameCds),
    ("ERROR: Step 3 failed - transferring input.json", env.copyToRest),
    ("ERROR: Step 4 failed - merge_letterdata.py", run_command env.mergeLetterdata),
    ("ERROR: Step 5 failed - renaming output.json", env.renameRest),
    ("ERROR: Step 6 failed - transferring input.json", env.copyToScriptRes),
    ("ERROR: Step 7 failed - Maven compile", run_command env.mavenCompile),
    ("ERROR: Step 7 failed - running ExprEval", run_command env.mavenExec),
    ("ERROR: Step 8 failed - renaming output.json", env.renameScriptRes),
    ("ERROR: Step 9 failed - transferring input.json", env.copyToPdfgen),
    ("ERROR: Step 10 failed - Storage API upload", run_command env.storageUpload),
    ("ERROR: Docx-to-PDF API failed with return code", run_command env.renderToPdf),
    ("ERROR: Could not determine PDF page count", pageCountPositive env.pageCount),
    ("ERROR: Stamp API failed for page", env.stampLoop) ]

/-- Sequential execution with early abort, the `if not ...: return 1`
chain of `main`: process exit code, error message emitted at the failing
step, and how many steps were attempted. -/
def pipelineRun : List (String × Bool) → Nat × Option String × Nat
  | [] => (0, none, 0)
  | (label, ok) :: rest =>
    if ok then
      let r := pipelineRun rest
      (r.1, r.2.1, r.2.2 + 1)
    else (1, some label, 1)

/-- C2: with the metadata and introspection strategies unavailable, a
byte stream holding three page-object markers and one pages-collection
marker resolves to a page count of 2. -/
theorem resolver_three_markers (env : PdfEnv) (content : List Nat)
    (h1 : mdlsStrategy env.mdls = none) (h2 : pdfinfoStrategy env.pdfinfo = none)
    (h3 : env.read1 = some content)
    (hc : countOccur typePageMarker content = 3)
    (hp : countOccur typePagesMarker content = 1) :
    get_pdf_page_count env = some 2 := by
  unfold get_pdf_page_count
  rw [h1, h2, h3]
  simp [byteHeuristic, hc, hp]

def pdfThreeMarkers : List Nat := strCodes ("/Type /Page /Type /Page /Type /Pages")

theorem resolver_three_markers_witness :
    get_pdf_page_count ⟨none, none, some pdfThreeMarkers, none⟩ = some 2 :=
  resolver_three_markers ⟨none, none, some pdfThreeMarkers, none⟩ pdfThreeMarkers
    rfl rfl rfl (by decide) (by decide)

/-- C3: when the first two strategies yield nothing and the file's bytes
are readable, the resolver returns the difference of the page-object and
pages-collection marker counts when that difference is positive, and the
raw page-object marker count otherwise. -/
theorem resolver_byte_marker_formula (env : PdfEnv) (content : List Nat)
    (h1 : mdlsStrategy env.mdls = none) (h2 : pdfinfoStrategy env.pdfinfo = none)
    (h3 : env.read1 = some content) :
    get_pdf_page_count env =
      some (if countOccur typePagesMarker content < countOccur typePageMarker content
            then countOccur typePageMarker content - countOccur typePagesMarker content
            else countOccur typePageMarker content) := by
  unfold get_pdf_page_count
  rw [h1, h2, h3]
  rfl

theorem resolver_byte_marker_formula_witness :
    get_pdf_page_count ⟨none, none, some typePagesMarker, none⟩ = some 1 :=
  (resolver_byte_marker_formula ⟨none, none, some typePagesMarker, none⟩ typePagesMarker
    rfl rfl rfl).trans (by decide)

/-- C4: when the platform metadata query succeeds with exit code zero and
its output parses to a positive page count, the resolver returns exactly
that value, whatever the other strategies would produce. -/
theorem metadata_strategy_wins (env : PdfEnv) (r : ProcResult) (n : Nat)
    (hr : env.mdls = some r) (hrc : r.returncode = 0)
    (hm : searchWith matchMdlsAt r.stdout = some n) (_hpos : 0 < n) :
    get_pdf_page_count env = some n := by
  unfold get_pdf_page_count mdlsStrategy
  rw [hr]
  simp [hrc, hm]

theorem metadata_strategy_wins_witness :
    get_pdf_page_count
      ⟨some ⟨0, strCodes ("kMDItemNumberOfPages = 5")⟩,
       some ⟨0, strCodes ("Pages: 9")⟩, some [], none⟩ = some 5 :=
  metadata_strategy_wins
    ⟨some ⟨0, strCodes ("kMDItemNumberOfPages = 5")⟩,
     some ⟨0, strCodes ("Pages: 9")⟩, some [], none⟩
    ⟨0, strCodes ("kMDItemNumberOfPages = 5")⟩ 5 rfl rfl (by decide) (by decide)

/-- C5: the resolver is a total function — exceptions inside a strategy
are modelled as `none` inputs and make that strategy yield no answer
rather than propagate — and when every strategy yields no value it
returns `none`. -/
theorem resolver_absent_when_all_fail (env : PdfEnv)
    (h1 : mdlsStrategy env.mdls = none) (h2 : pdfinfoStrategy env.pdfinfo = none)
    (h3 : env.read1 = none) (h4 : env.read2.bind countFallback = none) :
    get_pdf_page_count env = none := by
  unfold get_pdf_page_count
  rw [h1, h2, h3]
  cases hr : env.read2 with
  | none => rfl
  | some c =>
    rw [hr] at h4
    simpa using h4

theorem resolver_absent_when_all_fail_witness :
    get_pdf_page_count ⟨none, none, none, none⟩ = none :=
  resolver_absent_when_all_fail ⟨none, none, none, none⟩ rfl rfl rfl rfl

/-- C6 counterexample: with the first two strategies raising and an empty
readable file, the resolver returns `some 0`, a non-positive value, so it
is not the case that every non-absent result is positive. -/
theorem resolver_zero_counterexample :
    ¬ (∀ (env : PdfEnv) (n : Nat), get_pdf_page_count env = some n → 0 < n) := by
  intro h
  exact absurd (h ⟨none, none, some [], none⟩ 0 (by decide)) (by decide)

/-- C6 (amended): the resolver returns the first non-absent strategy
result in the fixed order, with no positivity filtering — a zero result
is returned as-is; the caller's check at line 290 is what rejects
non-positive counts. -/
theorem resolver_first_some (env : PdfEnv) :
    get_pdf_page_count env =
      (mdlsStrategy env.mdls).orElse (fun _ =>
        (pdfinfoStrategy env.pdfinfo).orElse (fun _ =>
          (env.read1.map byteHeuristic).orElse (fun _ =>
            env.read2.bind countFallback))) := by
  unfold get_pdf_page_count
  cases h1 : mdlsStrategy env.mdls with
  | some n => rfl
  | none =>
    cases h2 : pdfinfoStrategy env.pdfinfo with
    | some n => rfl
    | none =>
      cases h3 : env.read1 with
      | some c => rfl
      | none =>
        cases h4 : env.read2 with
        | some c => rfl
        | none => rfl

/-- C10: whenever the strategy-3 read succeeds the byte heuristic always
produces an integer, so the result does not depend on the second read
used by the `/Count` fallback, the resolver is never absent, and after
strategies 1 and 2 fail it returns exactly the heuristic's count. -/
theorem resolver_strategy3_total (m p : Option ProcResult) (c : List Nat)
    (r2 r2' : Option (List Nat)) :
    get_pdf_page_count ⟨m, p, some c, r2⟩ = get_pdf_page_count ⟨m, p, some c, r2'⟩ ∧
    get_pdf_page_count ⟨m, p, some c, r2⟩ ≠ none ∧
    (mdlsStrategy m = none → pdfinfoStrategy p = none →
      get_pdf_page_count ⟨m, p, some c, r2⟩ = some (byteHeuristic c)) := by
  unfold get_pdf_page_count
  cases h1 : mdlsStrategy m with
  | some n => simp
  | none =>
    cases h2 : pdfinfoStrategy p with
    | some n => simp
    | none => simp

theorem resolver_strategy3_total_witness :
    get_pdf_page_count ⟨none, none, some [], some (strCodes ("/Count 9"))⟩ =
      get_pdf_page_count ⟨none, none, some [], none⟩ ∧
    get_pdf_page_count ⟨none, none, some [], none⟩ = some 0 := by
  have h := resolver_strategy3_total none none [] (some (strCodes ("/Count 9"))) none
  exact ⟨h.1, (h.1.symm.trans (h.2.2 rfl rfl)).trans (by decide)⟩

def fsOnlyDst : FS := fun p => if p = "b" then some [1] else none

/-- C1 counterexample: `rename_file` unlinks an existing destination
before attempting the rename, so when the source is missing the file
previously at the destination does not survive — refuting the claim that
the destination is left untouched. -/
theorem rename_missing_source_counterexample :
    ¬ (∀ (fs : FS) (src dst : String), fs src = none →
        (rename_file fs src dst).1 = false ∧ (rename_file fs src dst).2 dst = fs dst) := by
  intro h
  have h2 := (h fsOnlyDst "a" "b" (by decide)).2
  have h3 : ¬ ((rename_file fsOnlyDst "a" "b").2 "b" = fsOnlyDst "b") := by decide
  exact h3 h2

/-- C1 (amended): renaming with a missing source is reported as a failure
(the caller in `main` then aborts the run with exit code 1), but because
the destination is unlinked before the rename is attempted, a file
previously at the destination is gone afterwards; every other path is
untouched. -/
theorem rename_missing_source (fs : FS) (src dst : String) (h : fs src = none) :
    (rename_file fs src dst).1 = false ∧
    (rename_file fs src dst).2 dst = none ∧
    ∀ p, p ≠ dst → (rename_file fs src dst).2 p = fs p := by
  unfold rename_file
  by_cases hd : (fs dst).isSome
  · have hsrc : (if src = dst then none else fs src) = (none : Option (List Nat)) := by
      by_cases hsd : src = dst <;> simp [hsd, h]
    simp only [hd, if_true]
    simp [hsrc]
    intro p hp
    simp [hp]
  · have hdst : fs dst = none := Option.not_isSome_iff_eq_none.mp hd
    simp only [hd, if_false, Bool.false_eq_true]
    simp [h, hdst]

theorem rename_missing_source_witness :
    (rename_file fsOnlyDst "a" "b").1 = false ∧
    (rename_file fsOnlyDst "a" "b").2 "b" = none := by
  have h := rename_missing_source fsOnlyDst "a" "b" (by decide)
  exact ⟨h.1, h.2.1⟩

theorem stampFrom_all_ok (stamp : Nat → List Nat → StampOutcome) :
    ∀ (r page : Nat) (pdf : List Nat),
      (∀ p q, page ≤ p → p < page + r → (stamp p q).isOk = true) →
      stampFrom stamp page r pdf = (List.range' page r, applyStamps stamp page r pdf, 0) := by
  intro r
  induction r with
  | zero => intro page pdf _; simp [stampFrom, applyStamps, List.range']
  | succ r' ih =>
    intro page pdf h
    have hpage : (stamp page pdf).isOk = true := h page pdf (Nat.le_refl page) (by omega)
    cases hst : stamp page pdf with
    | fail => rw [hst] at hpage; simp [StampOutcome.isOk] at hpage
    | ok out =>
      have ih' := ih (page + 1) out (fun p q hp1 hp2 => h p q (by omega) (by omega))
      simp [stampFrom, applyStamps, hst, ih', List.range']

theorem stampFrom_fail_after (stamp : Nat → List Nat → StampOutcome) :
    ∀ (j r page : Nat) (pdf : List Nat),
      j < r →
      (∀ p q, page ≤ p → p < page + j → (stamp p q).isOk = true) →
      (∀ q, (stamp (page + j) q).isOk = false) →
      stampFrom stamp page r pdf =
        (List.range' page (j + 1), applyStamps stamp page j pdf, 1) := by
  intro j
  induction j with
  | zero =>
    intro r page pdf hr _ hfail
    cases r with
    | zero => omega
    | succ r' =>
      have := hfail pdf
      cases hst : stamp page pdf with
      | ok out => rw [Nat.add_zero] at this; rw [hst] at this; simp [StampOutcome.isOk] at this
      | fail => simp [stampFrom, hst, applyStamps, List.range']
  | succ j' ih =>
    intro r page pdf hr hpre hfail
    cases r with
    | zero => omega
    | succ r' =>
      have hok : (stamp page pdf).isOk = true := hpre page pdf (Nat.le_refl page) (by omega)
      cases hst : stamp page pdf with
      | fail => rw [hst] at hok; simp [StampOutcome.isOk] at hok
      | ok out =>
        have hfail' : ∀ q, (stamp (page + 1 + j') q).isOk = false := by
          intro q
          have : page + 1 + j' = page + (j' + 1) := by omega
          rw [this]
          exact hfail q
        have ih' := ih r' (page + 1) out (by omega)
          (fun p q hp1 hp2 => hpre p q (by omega) (by omega)) hfail'
        simp [stampFrom, applyStamps, hst, ih', List.range']

/-- C7: for a page count of at least 1, the loop issues stamp calls with
page parameters 1..N in increasing order, each success replacing the
working PDF with the call's output; when every call succeeds all N pages
are stamped and the loop completes, and when the call for page k is the
first to fail the calls stop at k, the outcome is the abort code 1, and
the working PDF keeps the k-1 already-stamped pages (no rollback). -/
theorem stamp_loop_contract (stamp : Nat → List Nat → StampOutcome)
    (pdf0 : List Nat) (n : Nat) (_hn : 1 ≤ n) :
    ((∀ p q, (stamp p q).isOk = true) →
      stampAll stamp n pdf0 = (List.range' 1 n, applyStamps stamp 1 n pdf0, 0)) ∧
    (∀ k, 1 ≤ k → k ≤ n → (∀ p q, p < k → (stamp p q).isOk = true) →
      (∀ q, (stamp k q).isOk = false) →
      stampAll stamp n pdf0 = (List.range' 1 k, applyStamps stamp 1 (k - 1) pdf0, 1)) := by
  constructor
  · intro hall
    exact stampFrom_all_ok stamp n 1 pdf0 (fun p q _ _ => hall p q)
  · intro k hk1 hkn hpre hfail
    have hfail' : ∀ q, (stamp (1 + (k - 1)) q).isOk = false := by
      intro q
      have : 1 + (k - 1) = k := by omega
      rw [this]
      exact hfail q
    have h := stampFrom_fail_after stamp (k - 1) n 1 pdf0 (by omega)
      (fun p q hp1 hp2 => hpre p q (by omega)) hfail'
    have hk : k - 1 + 1 = k := by omega
    rw [hk] at h
    exact h

def stampTwoThenFail : Nat → List Nat → StampOutcome :=
  fun p pdf => if p ≤ 1 then StampOutcome.ok (37 :: pdf) else StampOutcome.fail

theorem stamp_loop_contract_witness :
    stampAll stampTwoThenFail 3 [] = ([1, 2], [37], 1) :=
  ((stamp_loop_contract stampTwoThenFail [] 3 (by decide)).2 2 (by decide) (by decide)
    (fun p q hp => by
      simp only [stampTwoThenFail]
      rw [if_pos (by omega : p ≤ 1)]
      rfl)
    (fun q => rfl)).trans (by decide)

theorem pipelineRun_all_ok :
    ∀ steps : List (String × Bool), steps.all Prod.snd = true →
      pipelineRun steps = (0, none, steps.length) := by
  intro steps h
  induction steps with
  | nil => rfl
  | cons s rest ih =>
    obtain ⟨label, ok⟩ := s
    simp only [List.all_cons, Bool.and_eq_true] at h
    have hok : ok = true := h.1
    simp [pipelineRun, hok, ih h.2]

theorem pipelineRun_first_fail :
    ∀ (steps : List (String × Bool)) (k : Nat) (hk : k < steps.length),
      (∀ i (hi : i < k), (steps.get ⟨i, Nat.lt_trans hi hk⟩).2 = true) →
      (steps.get ⟨k, hk⟩).2 = false →
      pipelineRun steps = (1, some (steps.get ⟨k, hk⟩).1, k + 1) := by
  intro steps
  induction steps with
  | nil => intro k hk; exact absurd hk (Nat.not_lt_zero k)
  | cons s rest ih =>
    intro k hk hpre hfail
    obtain ⟨label, ok⟩ := s
    cases k with
    | zero =>
      simp only [List.get] at hfail
      simp [pipelineRun, hfail]
    | succ k' =>
      have hok : ok = true := by
        have := hpre 0 (Nat.succ_pos k')
        simpa using this
      have hk' : k' < rest.length := Nat.lt_of_succ_lt_succ hk
      have hpre' : ∀ i (hi : i < k'), (rest.get ⟨i, Nat.lt_trans hi hk'⟩).2 = true := by
        intro i hi
        have := hpre (i + 1) (Nat.succ_lt_succ hi)
        simpa using this
      have hfail' : (rest.get ⟨k', hk'⟩).2 = false := by simpa using hfail
      have hrec := ih k' hk' hpre' hfail'
      simp [pipelineRun, hok, hrec]

/-- C8: the orchestrator's exit code is 0 when every guarded action
succeeds; at the first failing action it prints that step's error
message, returns 1, and attempts no further action. -/
theorem main_exit_code_contract (env : MainEnv) :
    ((mainSteps env).all Prod.snd = true →
      pipelineRun (mainSteps env) = (0, none, (mainSteps env).length)) ∧
    (∀ k (hk : k < (mainSteps env).length),
      (∀ i (hi : i < k), ((mainSteps env).get ⟨i, Nat.lt_trans hi hk⟩).2 = true) →
      ((mainSteps env).get ⟨k, hk⟩).2 = false →
      pipelineRun (mainSteps env) = (1, some ((mainSteps env).get ⟨k, hk⟩).1, k + 1)) :=
  ⟨pipelineRun_all_ok (mainSteps env),
   fun k hk h1 h2 => pipelineRun_first_fail (mainSteps env) k hk h1 h2⟩

def envStep4Fails : MainEnv :=
  ⟨some ⟨0, []⟩, true, true, some ⟨2, []⟩, true, true, some ⟨0, []⟩, some ⟨0, []⟩,
   true, true, some ⟨0, []⟩, some ⟨0, []⟩, some 1, true⟩

theorem main_exit_code_contract_witness :
    pipelineRun (mainSteps envStep4Fails) =
      (1, some "ERROR: Step 4 failed - merge_letterdata.py", 4) :=
  ((main_exit_code_contract envStep4Fails).2 3 (by decide) (by decide) (by decide)).trans
    (by decide)

/-- C9 is contradicted by the code: the success check of every
curl-backed HTTP step (`run_command` for the step-10 upload; the
identical inline exit-code checks at lines 271 and 321 for render and
stamp) inspects only the curl process exit code and never the HTTP status
of the response, and curl is invoked without any fail flag, so a
completed transfer carrying an HTTP error status still exits 0 and the
step counts as success instead of aborting the run. -/
theorem http_status_not_inspected :
    run_command (some ⟨0, strCodes ("500 Internal Server Error")⟩) = true ∧
    ∀ (rc : Int) (out1 out2 : List Nat),
      run_command (some ⟨rc, out1⟩) = run_command (some ⟨rc, out2⟩) :=
  ⟨rfl, fun _ _ _ => rfl⟩
